import Mathlib

/-!
Verification of the camera acquisition engine of the `Camera` repository
(`robust_arducam.py`, `native_color_arducam.py`, `true_color_test.py`,
`arducam_color_force.py`, `true_color_arducam.py`, `arducam_controller.py`)
against its natural-language specification.

The Python scripts are embedded shallowly: frames become a structure with a
pixel function, numpy's `uint8` arithmetic becomes explicit `% 256`
arithmetic on `Nat`, the camera device becomes a state record whose driver
behaviour (clamping, write acceptance) is a parameter, the background
capture loop becomes a recursion over a scripted list of read outcomes, and
the connection negotiator becomes a recursion over a candidate list whose
open/probe behaviour is scripted.
-/

namespace Camera

/-- A BGR pixel as stored in an OpenCV frame: `frame[y, x]` unpacks to
`b, g, r`, each a numpy `uint8` in `[0, 255]`. -/
structure Pixel where
  b : Nat
  g : Nat
  r : Nat
  deriving Repr, DecidableEq

/-- numpy `uint8` subtraction followed by `abs`: for `a, b < 256`,
`abs(a - b)` on `uint8` operands evaluates to `(a - b) mod 256`
(the `abs` is the identity because the wrapped result is non-negative). -/
def u8sub (a b : Nat) : Nat := (a + 256 - b % 256) % 256

/-- numpy `uint8` sum of the three components: `r + g + b` on `uint8`
operands wraps modulo 256. -/
def u8sum (p : Pixel) : Nat := (p.r + p.g + p.b) % 256

/-- True absolute difference of two channel values (ordinary integers,
no wraparound) — used to state what the spec's words describe. -/
def natAbsDiff (a b : Nat) : Nat := max a b - min a b

/-- `NativeColorArducamController._has_true_color`, per-pixel test
(native_color_arducam.py lines 97–104): the pixel counts as colorful when
any of the three computed channel differences exceeds 10.  The differences
are numpy `uint8` computations `abs(r-g)`, `abs(r-b)`, `abs(g-b)`, i.e.
mod-256 in the code's fixed subtraction order. -/
def nativePixelColorful (p : Pixel) : Bool :=
  decide (10 < u8sub p.r p.g) || decide (10 < u8sub p.r p.b)
    || decide (10 < u8sub p.g p.b)

/-- `test_true_color`, per-pixel test (true_color_test.py lines 64–79):
`max_diff > 25 and 50 < pixel_sum < 650`, where the pairwise differences
and the component sum are numpy `uint8` computations and therefore wrap
modulo 256. -/
def testPixelColorful (p : Pixel) : Bool :=
  let dRG := u8sub p.r p.g
  let dRB := u8sub p.r p.b
  let dGB := u8sub p.g p.b
  let maxDiff := max dRG (max dRB dGB)
  let pixelSum := u8sum p
  decide (25 < maxDiff) && decide (50 < pixelSum) && decide (pixelSum < 650)

/-- Modelled from the spec: the per-pixel colorfulness test as the spec
states it — true (unwrapped) pairwise absolute differences and true
component sum, `max(pairwise diffs) > 25` and `50 < sum < 650` — for
comparison with `testPixelColorful`, which is what the code computes. -/
def specPixelColorful (p : Pixel) : Bool :=
  let dRG := natAbsDiff p.r p.g
  let dRB := natAbsDiff p.r p.b
  let dGB := natAbsDiff p.g p.b
  let maxDiff := max dRG (max dRB dGB)
  let pixelSum := p.r + p.g + p.b
  decide (25 < maxDiff) && decide (50 < pixelSum) && decide (pixelSum < 650)

/-- `ArducamColorForce._check_color`, per-pixel test
(arducam_color_force.py lines 97–101): any computed difference above 20. -/
def forcePixelColorful (p : Pixel) : Bool :=
  decide (20 < u8sub p.r p.g) || decide (20 < u8sub p.r p.b)
    || decide (20 < u8sub p.g p.b)

/-- A captured frame: `chans` is 1 for a 2-D (grayscale) buffer and 3 for a
3-channel buffer (`len(frame.shape) == 3 and frame.shape[2] == 3`); `px y x`
is `frame[y, x]`.  For a 1-channel buffer only intensities exist; the checks
below never inspect `px` in that case. -/
structure Frame where
  w : Nat
  h : Nat
  chans : Nat
  px : Nat → Nat → Pixel

/-- The five sample points of `_has_true_color`
(native_color_arducam.py lines 88–92), as `(x, y)` pairs. -/
def samplePoints (w h : Nat) : List (Nat × Nat) :=
  [(w / 4, h / 4), (3 * w / 4, h / 4),
   (w / 4, 3 * h / 4), (3 * w / 4, 3 * h / 4),
   (w / 2, h / 2)]

/-- `NativeColorArducamController._has_true_color`
(native_color_arducam.py lines 81–107): a non-3-channel frame is never true
color; otherwise count the in-bounds sample points whose pixel is colorful
and require at least 2. -/
def hasTrueColor (f : Frame) : Bool :=
  if f.chans ≠ 3 then false
  else
    let colorPixels := (samplePoints f.w f.h).countP fun xy =>
      decide (xy.1 < f.w) && decide (xy.2 < f.h)
        && nativePixelColorful (f.px xy.2 xy.1)
    decide (2 ≤ colorPixels)

/-- Sum over the whole frame of the true absolute difference between two
selected channels — the numerator of the `np.mean(np.abs(...))` computed on
`float`-converted channels in `_is_grayscale_disguised_as_color`. -/
def sumAbsDiff (f : Frame) (sel₁ sel₂ : Pixel → Nat) : Nat :=
  ((List.range f.h).map fun y =>
    ((List.range f.w).map fun x =>
      natAbsDiff (sel₁ (f.px y x)) (sel₂ (f.px y x))).sum).sum

/-- `TrueColorArducamController._is_grayscale_disguised_as_color`
(true_color_arducam.py lines 84–107): a non-3-channel frame returns false;
otherwise the mean absolute difference of each channel pair over the whole
frame must be below 5.0 (`sum < 5 * (w*h)` over exact integers; an empty
frame has a NaN mean, which fails the `< 5` comparisons). -/
def isGrayscaleDisguised (f : Frame) : Bool :=
  if f.chans ≠ 3 then false
  else
    let n := f.w * f.h
    decide (0 < n)
      && decide (sumAbsDiff f Pixel.b Pixel.g < 5 * n)
      && decide (sumAbsDiff f Pixel.b Pixel.r < 5 * n)
      && decide (sumAbsDiff f Pixel.g Pixel.r < 5 * n)

/-- The spec's frame verdict enum. -/
inductive ColorVerdict where
  | TrueColor
  | Grayscale
  | GrayscaleDisguisedAsColor
  deriving Repr, DecidableEq

/-- The spec's `classify(frame) -> ColorVerdict`, assembled from the two
frame-level booleans the repository computes: `_has_true_color`
(native_color_arducam.py) decides TrueColor, else
`_is_grayscale_disguised_as_color` (true_color_arducam.py) decides
GrayscaleDisguisedAsColor, else Grayscale.  Both booleans return false
outright for a non-3-channel frame, so a 1-channel frame is Grayscale. -/
def classifyVerdict (f : Frame) : ColorVerdict :=
  if hasTrueColor f then ColorVerdict.TrueColor
  else if isGrayscaleDisguised f then ColorVerdict.GrayscaleDisguisedAsColor
  else ColorVerdict.Grayscale

/-- A frame whose every pixel has all three channels equal to `v`
(all-black for `v = 0`, all-white for `v = 255`). -/
def constFrame (w h chans v : Nat) : Frame :=
  ⟨w, h, chans, fun _ _ => ⟨v, v, v⟩⟩

/-! ## The camera device and the focus controller

`cv2.VideoCapture` becomes a state record.  The driver's behaviour on a
focus write — whether it clamps the value and whether `set` reports
success — is a parameter of the record, since the source treats it as
unknown hardware behaviour. -/

/-- An open (or failed-to-open) `cv2.VideoCapture` session.  `clampFocus`
is the driver's transformation of a written focus value into the value it
actually applies; `acceptFocus` is the success flag `cap.set(CAP_PROP_FOCUS, ·)`
returns. -/
structure Cap where
  opened : Bool
  autofocus : Nat
  focus : Nat
  clampFocus : Nat → Nat
  acceptFocus : Bool

/-- `cap.set(cv2.CAP_PROP_AUTOFOCUS, v)`. -/
def capSetAutofocus (c : Cap) (v : Nat) : Cap := { c with autofocus := v }

/-- `cap.set(cv2.CAP_PROP_FOCUS, v)`: the driver stores its clamp of `v`
and reports `acceptFocus`. -/
def capSetFocus (c : Cap) (v : Nat) : Cap × Bool :=
  ({ c with focus := c.clampFocus v }, c.acceptFocus)

/-- `cap.get(cv2.CAP_PROP_FOCUS)`. -/
def capGetFocus (c : Cap) : Nat := c.focus

/-- One device-property write, for tracing which properties `set_focus`
touches. -/
inductive PropWrite where
  | autofocusW (v : Nat)
  | focusW (v : Nat)
  deriving Repr, DecidableEq

/-- `RobustArducamController.set_focus` (robust_arducam.py lines 149–167;
the same body appears in native_color_arducam.py lines 158–171,
true_color_arducam.py and arducam_controller.py lines 293–314): when the
device is open, write autofocus := 0, write the focus value, sleep, read
the focus back (printed/logged only), and return the result of the focus
`set` call.  Returns the updated device, the boolean result, and the list
of property writes performed, in order. -/
def set_focus (c : Cap) (v : Nat) : Cap × Bool × List PropWrite :=
  if c.opened then
    let c₁ := capSetAutofocus c 0
    let (c₂, result) := capSetFocus c₁ v
    let _actual := capGetFocus c₂
    (c₂, result, [PropWrite.autofocusW 0, PropWrite.focusW v])
  else (c, false, [])

/-! ## The capture loop and the frame buffer

`RobustArducamController._capture_loop` (robust_arducam.py lines 108–140)
runs `while self.is_running`, reading frames.  It is embedded as a
recursion over a scripted list of read outcomes (`some f` for a successful
`cap.read()`, `none` for a failed one); the loop may terminate before the
script is exhausted (`break`), and a state whose script ran out is simply
observed mid-run. -/

/-- `max_failures` in `_capture_loop`. -/
def maxFailures : Nat := 10

/-- The mutable state of a `RobustArducamController` session as the
capture loop and `stop` see it: `currentFrame` is the frame-buffer slot
guarded by `frame_lock`, `capSome` models `self.cap` being non-None,
`exitedLoop` records that the loop has terminated, and `releaseCount`
counts calls to `self.cap.release()`. -/
structure LoopState where
  isRunning : Bool
  capSome : Bool
  currentFrame : Option Frame
  consecutiveFailures : Nat
  exitedLoop : Bool
  releaseCount : Nat

/-- `RobustArducamController._capture_loop` over a scripted list of read
outcomes.  Each iteration: exit when `is_running` is false; when the
device is present, a successful read publishes a copy of the frame into
the buffer and resets the failure streak, a failed read increments the
streak and `break`s once it reaches `max_failures` (the loop neither
releases the device nor touches `releaseCount`); a missing device
`break`s. -/
def captureLoop : LoopState → List (Option Frame) → LoopState
  | s, [] => s
  | s, r :: rest =>
    if s.isRunning then
      if s.capSome then
        match r with
        | some f =>
          captureLoop { s with currentFrame := some f, consecutiveFailures := 0 } rest
        | none =>
          if maxFailures ≤ s.consecutiveFailures + 1 then
            { s with consecutiveFailures := s.consecutiveFailures + 1,
                     exitedLoop := true }
          else
            captureLoop { s with consecutiveFailures := s.consecutiveFailures + 1 } rest
      else { s with exitedLoop := true }
    else { s with exitedLoop := true }

/-- `RobustArducamController.stop` (robust_arducam.py lines 169–177):
clear `is_running`, join the thread, and call `self.cap.release()` when
`self.cap` is non-None. -/
def stop (s : LoopState) : LoopState :=
  let s₁ := { s with isRunning := false }
  if s₁.capSome then { s₁ with releaseCount := s₁.releaseCount + 1 } else s₁

/-- `RobustArducamController.get_frame` (robust_arducam.py lines 142–147):
under the lock, return `(True, copy)` when a frame has been published and
`(False, None)` otherwise. -/
def get_frame (buf : Option Frame) : Bool × Option Frame :=
  match buf with
  | some f => (true, some f)
  | none => (false, none)

/-! ## The connection negotiator

`NativeColorArducamController.connect` (native_color_arducam.py lines
22–79) walks an ordered candidate list; per candidate it opens the device,
applies format/resolution, reads 5 probe frames, counts those passing
`_has_true_color`, accepts on `color_frames >= 3`, and otherwise releases
the device and moves on.  A candidate's open/probe behaviour is scripted. -/

/-- Scripted behaviour of one candidate configuration: the open fails, or
the device opens and the five probe reads return the given outcomes. -/
inductive CandidateBehavior where
  | openFail
  | opensWith (reads : List (Option Frame))

/-- Number of probe reads that both succeeded and passed
`_has_true_color` — the final value of `color_frames` in `connect`. -/
def probeTrueColorCount (reads : List (Option Frame)) : Nat :=
  reads.countP fun r =>
    match r with
    | some f => hasTrueColor f
    | none => false

/-- Number of probe reads that succeeded (`ret and frame is not None`). -/
def probeSuccessCount (reads : List (Option Frame)) : Nat :=
  reads.countP fun r => r.isSome

/-- The acceptance test of `connect`: `color_frames >= 3`
(native_color_arducam.py line 64). -/
def probeAccept (reads : List (Option Frame)) : Bool :=
  decide (3 ≤ probeTrueColorCount reads)

/-- Outcome of `connect` over a candidate list: the accepted candidate
(`none` models `connect` returning `False`), the candidates attempted in
order, and the number of `release()` calls made on opened-but-rejected
devices. -/
structure NegotiationResult (α : Type) where
  accepted : Option α
  attempted : List α
  releases : Nat
  deriving Repr, DecidableEq

/-- `NativeColorArducamController.connect` over a scripted candidate list:
an open failure moves to the next candidate (nothing to release); an
opened candidate is accepted — ending the walk with the device left
open — exactly when its probe passes `probeAccept`, and is otherwise
released before the next candidate is tried.  An exhausted list yields
`accepted = none` (`connect` returns `False`, a plain outcome, not an
exception). -/
def connect {α : Type} : List (α × CandidateBehavior) → NegotiationResult α
  | [] => ⟨none, [], 0⟩
  | (c, b) :: rest =>
    match b with
    | CandidateBehavior.openFail =>
      let r := connect rest
      ⟨r.accepted, c :: r.attempted, r.releases⟩
    | CandidateBehavior.opensWith reads =>
      if probeAccept reads then ⟨some c, [c], 0⟩
      else
        let r := connect rest
        ⟨r.accepted, c :: r.attempted, r.releases + 1⟩

/-- A candidate behaviour that fails negotiation: either the open fails or
the probe is rejected. -/
def behaviorFails : CandidateBehavior → Prop
  | CandidateBehavior.openFail => True
  | CandidateBehavior.opensWith reads => probeAccept reads = false

/-- Number of candidates in a list that open successfully. -/
def countOpened {α : Type} (cs : List (α × CandidateBehavior)) : Nat :=
  cs.countP fun cb =>
    match cb.2 with
    | CandidateBehavior.openFail => false
    | CandidateBehavior.opensWith _ => true

/-! ## Concrete fixtures used by counterexamples and witnesses -/

/-- A 4×4 3-channel frame whose every pixel is strongly red
(`(b,g,r) = (0,0,100)`): every sample point passes the per-pixel color
test, so `hasTrueColor` holds. -/
def redFrame : Frame := ⟨4, 4, 3, fun _ _ => ⟨0, 0, 100⟩⟩

/-- A 4×4 1-channel (2-D) frame with non-trivial content. -/
def grayFrame : Frame := ⟨4, 4, 1, fun _ _ => ⟨7, 7, 7⟩⟩

/-- An open device whose driver clamps any written focus value to at most
250 and reports every focus write as accepted — the "driver clamps"
scenario of the spec. -/
def clampCap : Cap := ⟨true, 1, 0, fun v => min v 250, true⟩

/-- A probe script in which only the first two of the five reads succeed,
both with a true-color frame: 2 successfully-read frames, 2 TrueColor
verdicts. -/
def twoOfTwoReads : List (Option Frame) :=
  [some redFrame, some redFrame, none, none, none]

/-- The near-white pixel `(b,g,r) = (255,225,255)`: its true component sum
is 735, outside the `(50, 650)` band, but the `uint8` sum wraps to 223. -/
def nearWhitePixel : Pixel := ⟨255, 225, 255⟩

/-- A probe script in which all 5 reads succeed with a TrueColor frame. -/
def fiveGoodReads : List (Option Frame) := List.replicate 5 (some redFrame)

/-- A capture-loop state fresh out of `start_capture`: running, device
present, no frame published yet, zero failure streak, zero releases. -/
def freshLoopState : LoopState := ⟨true, true, none, 0, false, 0⟩

/-! ## Supporting lemmas -/

/-- A pixel whose three channels are equal (below 256) is never colorful
for the native per-pixel test: all computed differences are 0. -/
theorem nativePixelColorful_const (v : Nat) (hv : v < 256) :
    nativePixelColorful ⟨v, v, v⟩ = false := by
  have h : u8sub v v = 0 := by
    unfold u8sub
    have hmod : v % 256 = v := Nat.mod_eq_of_lt hv
    rw [hmod]
    have h2 : v + 256 - v = 256 := by omega
    rw [h2]
  simp [nativePixelColorful, h]

/-- A constant frame (all channels `v < 256` everywhere) is never
classified as having true color, whatever its size and channel count. -/
theorem hasTrueColor_const (w h chans v : Nat) (hv : v < 256) :
    hasTrueColor (constFrame w h chans v) = false := by
  unfold hasTrueColor constFrame
  rcases eq_or_ne chans 3 with h3 | h3
  · subst h3
    simp only [ne_eq, not_true_eq_false, if_false, reduceIte]
    have h0 : (samplePoints w h).countP
        (fun xy => decide (xy.1 < w) && decide (xy.2 < h)
          && nativePixelColorful ⟨v, v, v⟩) = 0 := by
      apply List.countP_eq_zero.mpr
      intro a _
      simp [nativePixelColorful_const v hv]
    rw [h0]
    decide
  · simp [h3]

/-- The count of successfully-read-and-TrueColor probe frames never
exceeds the count of successfully-read probe frames. -/
theorem probeTrueColorCount_le_success (reads : List (Option Frame)) :
    probeTrueColorCount reads ≤ probeSuccessCount reads := by
  apply List.countP_mono_left
  intro r _ hr
  cases r with
  | none => simp at hr
  | some f => simp

/-! ## Claims -/

/-- Claim C1, counterexample: on an open device whose driver clamps the
focus value (300 is applied as 250) while reporting the write accepted,
`set_focus` returns `true` even though the read-back 250 differs from the
requested 300 by 50 — refuting "returns verified=true exactly when the
read-back matches v (within a small epsilon)" and "if the device clamps v
to a different number the result is false". -/
theorem C1_clamped_write_reports_true :
    (set_focus clampCap 300).2.1 = true ∧
    (set_focus clampCap 300).1.focus = 250 ∧
    natAbsDiff (set_focus clampCap 300).1.focus 300 = 50 := by
  decide

/-- Claim C1, amended: for every session with an open device and every
requested focus value `v`, `set_focus` disables autofocus, writes `v`
(which the driver clamps), waits, reads the focus back (logged only), and
returns the driver's write-accepted flag: the result is true exactly when
the driver reported the focus write accepted, independent of whether the
read-back matches `v`; the clamped value remains applied. -/
theorem C1_set_focus_returns_driver_accept (c : Cap) (v : Nat)
    (hopen : c.opened = true) :
    (set_focus c v).2.1 = c.acceptFocus ∧
    (set_focus c v).1.focus = c.clampFocus v ∧
    (set_focus c v).1.autofocus = 0 := by
  simp [set_focus, hopen, capSetAutofocus, capSetFocus, capGetFocus]

/-- Claim C1 amended, witness at the clamping device and value 300. -/
theorem C1_set_focus_returns_driver_accept_witness :
    (set_focus clampCap 300).2.1 = clampCap.acceptFocus ∧
    (set_focus clampCap 300).1.focus = clampCap.clampFocus 300 ∧
    (set_focus clampCap 300).1.autofocus = 0 :=
  C1_set_focus_returns_driver_accept clampCap 300 rfl

/-- Claim C4, code-bug exhibit: at the near-white pixel
`(b,g,r) = (255,225,255)` the code's per-pixel test (true_color_test.py
lines 64–79) counts the pixel as colorful — its `uint8` component sum
wraps from the true 735 to 223, which passes the `50 < sum < 650` band —
while the claimed condition (true component sum strictly between the
bounds, so near-white is never colorful) rejects it: 735 is not below
650. -/
theorem C4_uint8_sum_wrap_bug :
    testPixelColorful nearWhitePixel = true ∧
    specPixelColorful nearWhitePixel = false ∧
    nearWhitePixel.r + nearWhitePixel.g + nearWhitePixel.b = 735 ∧
    u8sum nearWhitePixel = 223 := by
  decide

/-- Claim C7: for every all-black and every all-white frame, of channel
count 1 or 3 and any width/height at least 1, the classifier never
returns TrueColor. -/
theorem C7_blank_frames_never_true_color (w h chans : Nat)
    (hw : 1 ≤ w) (hh : 1 ≤ h) (hc : chans = 1 ∨ chans = 3) :
    classifyVerdict (constFrame w h chans 0) ≠ ColorVerdict.TrueColor ∧
    classifyVerdict (constFrame w h chans 255) ≠ ColorVerdict.TrueColor := by
  have h0 := hasTrueColor_const w h chans 0 (by omega)
  have h255 := hasTrueColor_const w h chans 255 (by omega)
  constructor
  · simp only [classifyVerdict, h0, Bool.false_eq_true, if_false]
    split <;> decide
  · simp only [classifyVerdict, h255, Bool.false_eq_true, if_false]
    split <;> decide

/-- Claim C7, witness at 2×2 frames with 3 channels. -/
theorem C7_blank_frames_never_true_color_witness :
    classifyVerdict (constFrame 2 2 3 0) ≠ ColorVerdict.TrueColor ∧
    classifyVerdict (constFrame 2 2 3 255) ≠ ColorVerdict.TrueColor :=
  C7_blank_frames_never_true_color 2 2 3 (by decide) (by decide) (Or.inr rfl)

/-- Claim C8: for every frame with channel count 1, of any pixel content,
the classifier's verdict is Grayscale: the true-color check and the
disguised-grayscale check both return false on their channel-count guard,
before any pixel is sampled. -/
theorem C8_one_channel_is_grayscale (f : Frame) (h1 : f.chans = 1) :
    classifyVerdict f = ColorVerdict.Grayscale ∧
    hasTrueColor f = false ∧ isGrayscaleDisguised f = false := by
  have hne : f.chans ≠ 3 := by omega
  have ht : hasTrueColor f = false := by unfold hasTrueColor; simp [hne]
  have hg : isGrayscaleDisguised f = false := by
    unfold isGrayscaleDisguised; simp [hne]
  exact ⟨by simp [classifyVerdict, ht, hg], ht, hg⟩

/-- Claim C8, witness at a 1-channel frame with non-trivial content. -/
theorem C8_one_channel_is_grayscale_witness :
    classifyVerdict grayFrame = ColorVerdict.Grayscale ∧
    hasTrueColor grayFrame = false ∧ isGrayscaleDisguised grayFrame = false :=
  C8_one_channel_is_grayscale grayFrame rfl

/-- Claim C9, counterexample: the pure-saturated pixel
`(b,g,r) = (0,0,255)` has a true channel difference of 255 between r and
b (and r and g), exceeding 256 minus the threshold 10, yet the computed
difference `abs(r-g)` does not wrap (the larger channel is the minuend),
stays at 255 above the threshold, and the pixel IS counted as colorful —
refuting the claim's "for every" such pixel. -/
theorem C9_pure_red_still_colorful :
    natAbsDiff 255 0 = 255 ∧ 256 - 10 < natAbsDiff 255 0 ∧
    nativePixelColorful ⟨0, 0, 255⟩ = true := by
  decide

/-- Claim C9, amended: the channel differences are computed on unsigned
8-bit components in the code's fixed order (`r-g`, `r-b`, `g-b`), so each
computed `abs`-difference equals `a - b` when the minuend is at least the
subtrahend and wraps to `256 - (b - a)` otherwise; consequently a pixel is
dropped by the wraparound only when every wrapped difference lands at or
below the threshold: for every `v` with `246 ≤ v < 256`, pure blue
`(b,g,r) = (v,0,0)` (true differences `v > 246`) is counted not colorful,
while pure red `(0,0,v)` is still counted colorful. -/
theorem C9_uint8_wrap_direction (a b v : Nat) (ha : a < 256) (hb : b < 256)
    (hv1 : 246 ≤ v) (hv2 : v < 256) :
    u8sub a b = (if b ≤ a then a - b else 256 - (b - a)) ∧
    nativePixelColorful ⟨v, 0, 0⟩ = false ∧
    nativePixelColorful ⟨0, 0, v⟩ = true := by
  refine ⟨?_, ?_, ?_⟩
  · unfold u8sub
    split <;> omega
  · have h00 : u8sub 0 0 = 0 := by decide
    have h0v : u8sub 0 v = 256 - v := by unfold u8sub; omega
    have he : nativePixelColorful ⟨v, 0, 0⟩
        = (decide (10 < u8sub 0 0) || decide (10 < u8sub 0 v)
            || decide (10 < u8sub 0 v)) := rfl
    rw [he, h00, h0v]
    simp only [Bool.or_eq_false_iff, decide_eq_false_iff_not, not_lt]
    omega
  · have h00 : u8sub 0 0 = 0 := by decide
    have hv0 : u8sub v 0 = v := by unfold u8sub; omega
    have he : nativePixelColorful ⟨0, 0, v⟩
        = (decide (10 < u8sub v 0) || decide (10 < u8sub v 0)
            || decide (10 < u8sub 0 0)) := rfl
    rw [he, h00, hv0]
    simp only [Bool.or_eq_true, decide_eq_true_eq]
    omega

/-- Claim C9 amended, witness at `a = 100`, `b = 200`, `v = 255`. -/
theorem C9_uint8_wrap_direction_witness :
    u8sub 100 200 = (if 200 ≤ 100 then 100 - 200 else 256 - (200 - 100)) ∧
    nativePixelColorful ⟨255, 0, 0⟩ = false ∧
    nativePixelColorful ⟨0, 0, 255⟩ = true :=
  C9_uint8_wrap_direction 100 200 255 (by decide) (by decide) (by decide)
    (by decide)

/-- Claim C10: every `set_focus` call on an open device performs exactly
two property writes, autofocus := 0 first and then focus := v, in that
order — regardless of the session's current autofocus state and of
whether the caller ever requested autofocus off; no other property is
written. -/
theorem C10_set_focus_write_trace (c : Cap) (v : Nat)
    (hopen : c.opened = true) :
    (set_focus c v).2.2 = [PropWrite.autofocusW 0, PropWrite.focusW v] := by
  simp [set_focus, hopen, capSetAutofocus, capSetFocus, capGetFocus]

/-- Claim C10, witness at a device whose autofocus is currently on. -/
theorem C10_set_focus_write_trace_witness :
    (set_focus clampCap 42).2.2
      = [PropWrite.autofocusW 0, PropWrite.focusW 42] :=
  C10_set_focus_write_trace clampCap 42 rfl

/-- Claim C2, counterexample: a candidate whose probe reads succeed only
twice, both frames TrueColor, has a 100% TrueColor rate among
successfully-read frames (2·2 > 2), yet `connect` rejects it because the
acceptance test is the absolute `color_frames >= 3` — refuting "accepted
if and only if the count of TrueColor verdicts exceeds 50% of the
successfully-read probe frames". -/
theorem C2_full_majority_of_two_rejected :
    probeSuccessCount twoOfTwoReads = 2 ∧
    probeTrueColorCount twoOfTwoReads = 2 ∧
    probeSuccessCount twoOfTwoReads < 2 * probeTrueColorCount twoOfTwoReads ∧
    probeAccept twoOfTwoReads = false ∧
    (connect [((0 : Nat), CandidateBehavior.opensWith twoOfTwoReads)]).accepted
      = none := by
  decide

/-- Claim C2, amended: `connect` reads 5 probe frames per candidate and
accepts the candidate if and only if at least 3 of the 5 read attempts
yield a frame classified TrueColor — an absolute threshold over the read
attempts, not a fraction of the successfully-read frames; a candidate
with zero successfully-read frames has zero TrueColor verdicts and is
rejected, with negotiation moving to the next candidate. -/
theorem C2_accept_is_three_of_five_attempts {α : Type} (c : α)
    (reads : List (Option Frame)) (rest : List (α × CandidateBehavior))
    (h5 : reads.length = 5) :
    probeSuccessCount reads ≤ 5 ∧
    (3 ≤ probeTrueColorCount reads →
      (connect ((c, CandidateBehavior.opensWith reads) :: rest)).accepted
        = some c) ∧
    (probeTrueColorCount reads < 3 →
      (connect ((c, CandidateBehavior.opensWith reads) :: rest)).accepted
          = (connect rest).accepted ∧
      (connect ((c, CandidateBehavior.opensWith reads) :: rest)).attempted
          = c :: (connect rest).attempted) ∧
    (probeSuccessCount reads = 0 → probeTrueColorCount reads = 0) := by
  refine ⟨?_, ?_, ?_, ?_⟩
  · rw [← h5]
    exact List.countP_le_length _
  · intro h3
    have hacc : probeAccept reads = true := by
      unfold probeAccept
      simp only [decide_eq_true_eq]
      omega
    simp [connect, hacc]
  · intro h3
    have hacc : probeAccept reads = false := by
      unfold probeAccept
      simp only [decide_eq_false_iff_not, not_le]
      omega
    simp [connect, hacc]
  · intro h0
    have hle := probeTrueColorCount_le_success reads
    omega

/-- Claim C2 amended, witness at the two-successful-reads probe script. -/
theorem C2_accept_is_three_of_five_attempts_witness :
    probeSuccessCount twoOfTwoReads ≤ 5 ∧
    (3 ≤ probeTrueColorCount twoOfTwoReads →
      (connect (((0 : Nat), CandidateBehavior.opensWith twoOfTwoReads)
          :: [])).accepted = some 0) ∧
    (probeTrueColorCount twoOfTwoReads < 3 →
      (connect (((0 : Nat), CandidateBehavior.opensWith twoOfTwoReads)
          :: [])).accepted = (connect ([] : List (Nat × CandidateBehavior))).accepted ∧
      (connect (((0 : Nat), CandidateBehavior.opensWith twoOfTwoReads)
          :: [])).attempted
        = 0 :: (connect ([] : List (Nat × CandidateBehavior))).attempted) ∧
    (probeSuccessCount twoOfTwoReads = 0 →
      probeTrueColorCount twoOfTwoReads = 0) :=
  C2_accept_is_three_of_five_attempts 0 twoOfTwoReads [] rfl

/-- Claim C3, counterexample: starting from a fresh running session, ten
consecutive read failures make the capture loop terminate (`break`), but
the terminated state has performed zero `release()` calls — refuting
"transitions to the terminal Faulted state ... and releases the device
handle". -/
theorem C3_fault_exits_without_release :
    (captureLoop freshLoopState (List.replicate 10 none)).exitedLoop = true ∧
    (captureLoop freshLoopState (List.replicate 10 none)).consecutiveFailures
      = 10 ∧
    (captureLoop freshLoopState (List.replicate 10 none)).releaseCount = 0 := by
  decide

/-- Claim C3, amended: when the consecutive-read-failure streak reaches
the ceiling 10, the capture loop stops iterating (terminal: any further
scripted reads are never consumed) but does NOT release the device
handle; the handle is released — exactly once — only when `stop()` is
subsequently called. -/
theorem C3_fault_terminal_release_only_in_stop (s : LoopState)
    (rest : List (Option Frame)) (hrun : s.isRunning = true)
    (hcap : s.capSome = true) (hstreak : s.consecutiveFailures = 0)
    (hrel : s.releaseCount = 0) :
    (captureLoop s (List.replicate 10 none ++ rest)).exitedLoop = true ∧
    (captureLoop s (List.replicate 10 none ++ rest)).consecutiveFailures
      = 10 ∧
    (captureLoop s (List.replicate 10 none ++ rest)).releaseCount = 0 ∧
    (stop (captureLoop s (List.replicate 10 none ++ rest))).releaseCount = 1 ∧
    captureLoop s (List.replicate 10 none ++ rest)
      = captureLoop s (List.replicate 10 none) := by
  obtain ⟨run, cap, buf, n, e, rel⟩ := s
  replace hrun : run = true := hrun
  replace hcap : cap = true := hcap
  replace hstreak : n = 0 := hstreak
  replace hrel : rel = 0 := hrel
  subst hrun; subst hcap; subst hstreak; subst hrel
  exact ⟨rfl, rfl, rfl, rfl, rfl⟩

/-- Claim C3 amended, witness at the fresh session with an empty tail. -/
theorem C3_fault_terminal_release_only_in_stop_witness :
    (captureLoop freshLoopState
        (List.replicate 10 none ++ [])).exitedLoop = true ∧
    (captureLoop freshLoopState
        (List.replicate 10 none ++ [])).consecutiveFailures = 10 ∧
    (captureLoop freshLoopState
        (List.replicate 10 none ++ [])).releaseCount = 0 ∧
    (stop (captureLoop freshLoopState
        (List.replicate 10 none ++ []))).releaseCount = 1 ∧
    captureLoop freshLoopState (List.replicate 10 none ++ [])
      = captureLoop freshLoopState (List.replicate 10 none) :=
  C3_fault_terminal_release_only_in_stop freshLoopState [] rfl rfl rfl rfl

/-- Running the capture loop over a script of successful reads leaves the
frame buffer holding the last read frame, from any running state with the
device present. -/
theorem captureLoop_publishes_last (fs : List Frame) (f : Frame) :
    ∀ s : LoopState, s.isRunning = true → s.capSome = true →
      (captureLoop s (List.map some (fs ++ [f]))).currentFrame = some f := by
  induction fs with
  | nil =>
    intro s hrun hcap
    obtain ⟨run, cap, buf, n, e, rel⟩ := s
    replace hrun : run = true := hrun
    replace hcap : cap = true := hcap
    subst hrun; subst hcap
    rfl
  | cons g gs ih =>
    intro s hrun hcap
    obtain ⟨run, cap, buf, n, e, rel⟩ := s
    replace hrun : run = true := hrun
    replace hcap : cap = true := hcap
    subst hrun; subst hcap
    have step : captureLoop ⟨true, true, buf, n, e, rel⟩
        (List.map some ((g :: gs) ++ [f]))
        = captureLoop ⟨true, true, some g, 0, e, rel⟩
            (List.map some (gs ++ [f])) := rfl
    rw [step]
    exact ih _ rfl rfl

/-- Claim C6: `get_frame` before any publish returns `(False, None)`, and
after the capture loop publishes a sequence of frames ending in `f`, the
single-slot buffer holds exactly `f` (latest wins) and `get_frame`
returns it. -/
theorem C6_latest_wins (s : LoopState) (fs : List Frame) (f : Frame)
    (hrun : s.isRunning = true) (hcap : s.capSome = true)
    (hbuf : s.currentFrame = none) :
    get_frame s.currentFrame = (false, none) ∧
    get_frame (captureLoop s (List.map some (fs ++ [f]))).currentFrame
      = (true, some f) := by
  constructor
  · rw [hbuf]
    rfl
  · rw [captureLoop_publishes_last fs f s hrun hcap]
    rfl

/-- Claim C6, witness: fresh session, two published frames, the second
one is returned. -/
theorem C6_latest_wins_witness :
    get_frame freshLoopState.currentFrame = (false, none) ∧
    get_frame (captureLoop freshLoopState
        (List.map some ([grayFrame] ++ [redFrame]))).currentFrame
      = (true, some redFrame) :=
  C6_latest_wins freshLoopState [grayFrame] redFrame rfl rfl rfl

/-- Negotiation walks past a prefix of failing candidates (open failures
or rejected probes) and accepts the first candidate whose probe passes,
attempting nothing beyond it. -/
theorem connect_skips_failing_prefix {α : Type}
    (pre : List (α × CandidateBehavior)) (c : α)
    (post : List (α × CandidateBehavior)) (reads : List (Option Frame))
    (hpre : ∀ cb ∈ pre, behaviorFails cb.2)
    (hacc : probeAccept reads = true) :
    (connect (pre ++ (c, CandidateBehavior.opensWith reads) :: post)).accepted
        = some c ∧
    (connect (pre ++ (c, CandidateBehavior.opensWith reads) :: post)).attempted
        = pre.map Prod.fst ++ [c] := by
  induction pre with
  | nil => simp [connect, hacc]
  | cons cb pres ih =>
    obtain ⟨a, b⟩ := cb
    have hb : behaviorFails b := hpre ⟨a, b⟩ (by simp)
    have hrest : ∀ x ∈ pres, behaviorFails x.2 := fun x hx =>
      hpre x (List.mem_cons_of_mem _ hx)
    have ihr := ih hrest
    cases b with
    | openFail =>
      simp only [List.cons_append, connect, List.map_cons]
      exact ⟨ihr.1, congrArg (List.cons a) ihr.2⟩
    | opensWith rs =>
      have hfail : probeAccept rs = false := hb
      simp only [List.cons_append, connect, hfail, Bool.false_eq_true,
        if_false, List.map_cons]
      exact ⟨ihr.1, congrArg (List.cons a) ihr.2⟩

/-- When every candidate fails (open failure or rejected probe),
negotiation returns the failure outcome and has released every device it
opened. -/
theorem connect_all_fail {α : Type} (cs : List (α × CandidateBehavior))
    (hall : ∀ cb ∈ cs, behaviorFails cb.2) :
    (connect cs).accepted = none ∧ (connect cs).releases = countOpened cs := by
  induction cs with
  | nil => simp [connect, countOpened]
  | cons cb rest ih =>
    obtain ⟨a, b⟩ := cb
    have hb : behaviorFails b := hall ⟨a, b⟩ (by simp)
    have hrest : ∀ x ∈ rest, behaviorFails x.2 := fun x hx =>
      hall x (List.mem_cons_of_mem _ hx)
    have ihr := ih hrest
    cases b with
    | openFail =>
      simp only [connect, countOpened, List.countP_cons]
      constructor
      · exact ihr.1
      · simpa [countOpened] using ihr.2
    | opensWith rs =>
      have hfail : probeAccept rs = false := hb
      simp only [connect, hfail, Bool.false_eq_true, if_false, countOpened,
        List.countP_cons]
      constructor
      · exact ihr.1
      · simpa [countOpened] using ihr.2

/-- Claim C5: (i) over a candidate list whose first K entries fail (open
failure or failed probe) and whose candidate K+1 reads all 5 probe frames
with a strict TrueColor majority, negotiation accepts candidate K+1 and
its attempt trace stops there — no later candidate is attempted; (ii)
when every candidate fails, negotiation yields the typed failure outcome
(`accepted = none`, not an exception) and every opened device has been
released. -/
theorem C5_first_passing_candidate_wins {α : Type} :
    (∀ (pre : List (α × CandidateBehavior)) (c : α)
        (post : List (α × CandidateBehavior)) (reads : List (Option Frame)),
      (∀ cb ∈ pre, behaviorFails cb.2) →
      reads.length = 5 →
      (∀ r ∈ reads, r.isSome = true) →
      probeSuccessCount reads < 2 * probeTrueColorCount reads →
      (connect (pre ++ (c, CandidateBehavior.opensWith reads) :: post)).accepted
          = some c ∧
      (connect (pre ++ (c, CandidateBehavior.opensWith reads) :: post)).attempted
          = pre.map Prod.fst ++ [c]) ∧
    (∀ cs : List (α × CandidateBehavior),
      (∀ cb ∈ cs, behaviorFails cb.2) →
      (connect cs).accepted = none ∧ (connect cs).releases = countOpened cs) := by
  constructor
  · intro pre c post reads hpre h5 hsome hmaj
    have hsucc : probeSuccessCount reads = reads.length := by
      unfold probeSuccessCount
      apply List.countP_eq_length.mpr
      intro a ha
      exact hsome a ha
    have hacc : probeAccept reads = true := by
      unfold probeAccept
      simp only [decide_eq_true_eq]
      have hle := probeTrueColorCount_le_success reads
      omega
    exact connect_skips_failing_prefix pre c post reads hpre hacc
  · exact fun cs hall => connect_all_fail cs hall

/-- Claim C5, witness: candidates 0 (open failure) and 1 (probe all
failed reads) fail, candidate 2 reads 5/5 TrueColor frames and wins with
candidate 3 never attempted; a list of only the two failing candidates is
exhausted with one release (candidate 1 opened). -/
theorem C5_first_passing_candidate_wins_witness :
    ((connect ([((0 : Nat), CandidateBehavior.openFail),
          (1, CandidateBehavior.opensWith (List.replicate 5 none))]
        ++ (2, CandidateBehavior.opensWith fiveGoodReads)
          :: [(3, CandidateBehavior.openFail)])).accepted = some 2 ∧
      (connect ([((0 : Nat), CandidateBehavior.openFail),
          (1, CandidateBehavior.opensWith (List.replicate 5 none))]
        ++ (2, CandidateBehavior.opensWith fiveGoodReads)
          :: [(3, CandidateBehavior.openFail)])).attempted
        = [((0 : Nat), CandidateBehavior.openFail),
            (1, CandidateBehavior.opensWith
              (List.replicate 5 none))].map Prod.fst ++ [2]) ∧
    ((connect [((0 : Nat), CandidateBehavior.openFail),
        (1, CandidateBehavior.opensWith (List.replicate 5 none))]).accepted
        = none ∧
      (connect [((0 : Nat), CandidateBehavior.openFail),
        (1, CandidateBehavior.opensWith (List.replicate 5 none))]).releases
        = countOpened [((0 : Nat), CandidateBehavior.openFail),
            (1, CandidateBehavior.opensWith (List.replicate 5 none))]) := by
  constructor
  · exact (C5_first_passing_candidate_wins (α := Nat)).1
      [((0 : Nat), CandidateBehavior.openFail),
        (1, CandidateBehavior.opensWith (List.replicate 5 none))]
      2 [(3, CandidateBehavior.openFail)] fiveGoodReads
      (by
        intro cb hcb
        simp only [List.mem_cons, List.not_mem_nil, or_false] at hcb
        rcases hcb with rfl | rfl
        · exact trivial
        · show probeAccept (List.replicate 5 none) = false
          decide)
      rfl
      (by decide)
      (by decide)
  · exact (C5_first_passing_candidate_wins (α := Nat)).2
      [((0 : Nat), CandidateBehavior.openFail),
        (1, CandidateBehavior.opensWith (List.replicate 5 none))]
      (by
        intro cb hcb
        simp only [List.mem_cons, List.not_mem_nil, or_false] at hcb
        rcases hcb with rfl | rfl
        · exact trivial
        · show probeAccept (List.replicate 5 none) = false
          decide)

end Camera
